import Mathlib

/-!
Verification of the casino repository's provably-fair outcome engine and
settlement protocol.  The TypeScript sources are shallowly embedded here:
JavaScript numbers are modelled as rationals, and the calls to the remote
store (Supabase) are modelled as explicit state passing over a `LedgerState`
holding the authoritative persisted balance and the append-only transaction
log.  `Number(x.toFixed(d))` is modelled by `roundTo d`, using the
round-half-up tie behaviour of JavaScript's toFixed / Math.round.
-/

namespace Casino

/-- Rounding to a fixed number of decimal digits, as JavaScript's
`Number(x.toFixed(digits))` and (for `digits = 0`) `Math.round`:
ties are resolved upward, i.e. the result is `⌊x·10^d + 1/2⌋ / 10^d`,
which is exactly Mathlib's `round`. -/
def roundTo (digits : ℕ) (q : ℚ) : ℚ :=
  (round (q * 10 ^ digits) : ℚ) / 10 ^ digits

/-- Two-decimal rounding (`Number(x.toFixed(2))` in the sources). -/
def round2 : ℚ → ℚ := roundTo 2

/-- Four-decimal rounding (`parseFloat(x.toFixed(4))` in the sources). -/
def round4 : ℚ → ℚ := roundTo 4

theorem roundTo_nonneg (digits : ℕ) (q : ℚ) (hq : 0 ≤ q) : 0 ≤ roundTo digits q := by
  unfold roundTo
  apply div_nonneg _ (by positivity)
  have h : (0 : ℤ) ≤ round (q * 10 ^ digits) := by
    rw [round_eq]
    apply Int.le_floor.mpr
    push_cast
    nlinarith [pow_pos (show (0:ℚ) < 10 by norm_num) digits]
  exact_mod_cast h

theorem roundTo_zero (digits : ℕ) : roundTo digits 0 = 0 := by
  simp [roundTo]

/-- A quantity that is an integer number of `10^-d` units is unchanged by
`roundTo d`; this is how exact cent amounts pass through `toFixed(2)`. -/
theorem roundTo_int_units (digits : ℕ) (k : ℤ) :
    roundTo digits ((k : ℚ) / 10 ^ digits) = (k : ℚ) / 10 ^ digits := by
  unfold roundTo
  rw [div_mul_cancel₀]
  · rw [round_intCast]
  · positivity

/-- Transaction types recorded in the `token_transactions` table
(`src/lib/tokens.ts` and the SQL migration check constraint). -/
inductive TxType where
  | purchase
  | game_spend
  | game_win
deriving DecidableEq, Repr

/-- The game identifiers passed to `recordGameTransaction`. -/
inductive GameType where
  | crash
  | dice
  | plinko
  | blackjack
  | mines
deriving DecidableEq, Repr

/-- One row of the append-only `token_transactions` table. -/
structure TransactionRecord where
  transaction_type : TxType
  game_type : GameType
  token_amount : ℚ
deriving DecidableEq, Repr

/-- The authoritative persisted state touched by `src/lib/tokens.ts`:
the profile's `token_balance` column and the append-only
`token_transactions` log for one user. -/
structure LedgerState where
  token_balance : ℚ
  transactions : List TransactionRecord
deriving DecidableEq, Repr

/-- `updateTokenBalance` (src/lib/tokens.ts, lines 45-76): persists
`Number(Math.max(0, newBalance).toFixed(2))` as the new balance and returns
the confirmed value.  It never writes the transaction log. -/
def updateTokenBalance (st : LedgerState) (newBalance : ℚ) : LedgerState × ℚ :=
  let roundedBalance := round2 (max 0 newBalance)
  ({ st with token_balance := roundedBalance }, roundedBalance)

/-- `recordGameTransaction` (src/lib/tokens.ts, lines 78-134): reads the
authoritative persisted balance, rejects a spend whose amount exceeds it
before any write happens, otherwise appends one transaction row and then
persists the new balance through `updateTokenBalance`. -/
def recordGameTransaction (st : LedgerState) (gameType : GameType)
    (amount : ℚ) (isWin : Bool) : Except String LedgerState :=
  let currentBalance := st.token_balance
  if isWin = false ∧ currentBalance < amount then
    Except.error "Insufficient token balance"
  else
    let st1 : LedgerState :=
      { st with transactions := st.transactions ++
          [{ transaction_type := if isWin then TxType.game_win else TxType.game_spend,
             game_type := gameType,
             token_amount := round2 amount }] }
    let newBalance := if isWin then currentBalance + amount else currentBalance - amount
    Except.ok (updateTokenBalance st1 newBalance).1

/-- One ledger call, as issued by the games: a game type, an amount, and
whether it is a win credit or a spend. -/
structure LedgerOp where
  game : GameType
  amount : ℚ
  isWin : Bool
deriving DecidableEq, Repr

/-- Run one `recordGameTransaction` call against the persisted state; a
thrown error leaves the persisted state untouched (the function throws
before any write in the insufficient-balance case). -/
def applyOp (st : LedgerState) (o : LedgerOp) : LedgerState :=
  match recordGameTransaction st o.game o.amount o.isWin with
  | Except.ok st' => st'
  | Except.error _ => st

/-- Run a sequence of ledger calls. -/
def applyOps (st : LedgerState) (ops : List LedgerOp) : LedgerState :=
  ops.foldl applyOp st

theorem recordGameTransaction_ok_balance_nonneg (st : LedgerState)
    (g : GameType) (a : ℚ) (w : Bool) (st' : LedgerState)
    (h : recordGameTransaction st g a w = Except.ok st') :
    0 ≤ st'.token_balance := by
  unfold recordGameTransaction at h
  by_cases hc : w = false ∧ st.token_balance < a
  · simp [hc] at h
  · simp only [hc, if_false, if_neg hc] at h
    cases h
    exact roundTo_nonneg 2 _ (le_max_left 0 _)

theorem applyOp_balance_nonneg (st : LedgerState) (o : LedgerOp)
    (h : 0 ≤ st.token_balance) : 0 ≤ (applyOp st o).token_balance := by
  unfold applyOp
  cases hr : recordGameTransaction st o.game o.amount o.isWin with
  | ok st' => exact recordGameTransaction_ok_balance_nonneg st o.game o.amount o.isWin st' hr
  | error e => exact h

/-- C1: for every account and every sequence of `recordGameTransaction`
spend and credit calls, the persisted balance stays nonnegative; and a
spend whose amount exceeds the current authoritative persisted balance
fails with the insufficient-balance error and leaves both the balance and
the transaction log unchanged (no partial effects). -/
theorem C1_balance_nonneg_and_overdraft_rejected (st : LedgerState)
    (ops : List LedgerOp) (h0 : 0 ≤ st.token_balance) :
    0 ≤ (applyOps st ops).token_balance ∧
    ∀ (g : GameType) (amount : ℚ), st.token_balance < amount →
      recordGameTransaction st g amount false =
        Except.error "Insufficient token balance" ∧
      applyOp st { game := g, amount := amount, isWin := false } = st := by
  constructor
  · unfold applyOps
    induction ops generalizing st with
    | nil => exact h0
    | cons o rest ih =>
      exact ih (applyOp st o) (applyOp_balance_nonneg st o h0)
  · intro g amount hlt
    have herr : recordGameTransaction st g amount false =
        Except.error "Insufficient token balance" := by
      unfold recordGameTransaction
      simp [hlt]
    refine ⟨herr, ?_⟩
    unfold applyOp
    simp [herr]

/-- Witness for C1 at concrete inputs: starting from balance 100, a spend
of 30, an over-large spend of 150 (silently rejected by `applyOp`) and a
credit of 50 keep the balance nonnegative, and the over-large spend of 150
is rejected with the insufficient-balance error, leaving the state
unchanged. -/
theorem C1_balance_nonneg_and_overdraft_rejected_witness :
    0 ≤ (applyOps { token_balance := 100, transactions := [] }
        [ { game := GameType.dice, amount := 30, isWin := false },
          { game := GameType.dice, amount := 150, isWin := false },
          { game := GameType.dice, amount := 50, isWin := true } ]).token_balance ∧
    recordGameTransaction { token_balance := 100, transactions := [] }
        GameType.dice 150 false = Except.error "Insufficient token balance" ∧
    applyOp { token_balance := 100, transactions := [] }
        { game := GameType.dice, amount := 150, isWin := false } =
      { token_balance := 100, transactions := [] } := by
  have h := C1_balance_nonneg_and_overdraft_rejected
    { token_balance := 100, transactions := [] }
    [ { game := GameType.dice, amount := 30, isWin := false },
      { game := GameType.dice, amount := 150, isWin := false },
      { game := GameType.dice, amount := 50, isWin := true } ] (by norm_num)
  exact ⟨h.1, (h.2 GameType.dice 150 (by norm_num)).1,
    (h.2 GameType.dice 150 (by norm_num)).2⟩

/-- C10: every call of `updateTokenBalance` persists and returns
`round2 (max 0 requested)`; in particular a negative requested balance is
silently stored as 0 (no error path exists for it), and the transaction
log is not touched. -/
theorem C10_updateTokenBalance_clamps_and_rounds (st : LedgerState) (v : ℚ) :
    (updateTokenBalance st v).2 = round2 (max 0 v) ∧
    ((updateTokenBalance st v).1).token_balance = round2 (max 0 v) ∧
    ((updateTokenBalance st v).1).transactions = st.transactions ∧
    (v < 0 → (updateTokenBalance st v).2 = 0) := by
  refine ⟨rfl, rfl, rfl, ?_⟩
  intro hv
  show round2 (max 0 v) = 0
  rw [max_eq_left hv.le]
  exact roundTo_zero 2

/-- Witness for C10 at a concrete input: requesting the negative balance
−5 stores and returns 0. -/
theorem C10_updateTokenBalance_clamps_and_rounds_witness :
    (updateTokenBalance { token_balance := 100, transactions := [] } (-5)).2 = 0 :=
  (C10_updateTokenBalance_clamps_and_rounds
    { token_balance := 100, transactions := [] } (-5)).2.2.2 (by norm_num)

/-- A spend that fits in the balance reduces the persisted balance by the
amount and appends one `game_spend` row. -/
theorem recordGameTransaction_spend_ok (st : LedgerState) (g : GameType)
    (a : ℚ) (h : a ≤ st.token_balance) :
    recordGameTransaction st g a false =
      Except.ok { token_balance := round2 (max 0 (st.token_balance - a)),
                  transactions := st.transactions ++
                    [{ transaction_type := TxType.game_spend, game_type := g,
                       token_amount := round2 a }] } := by
  unfold recordGameTransaction updateTokenBalance
  simp [not_lt.mpr h]

/-- A win credit always succeeds: it increases the persisted balance by the
amount and appends one `game_win` row. -/
theorem recordGameTransaction_win_ok (st : LedgerState) (g : GameType) (a : ℚ) :
    recordGameTransaction st g a true =
      Except.ok { token_balance := round2 (max 0 (st.token_balance + a)),
                  transactions := st.transactions ++
                    [{ transaction_type := TxType.game_win, game_type := g,
                       token_amount := round2 a }] } := by
  unfold recordGameTransaction updateTokenBalance
  simp

namespace Dice

/-- `calculateMultiplier` from the dice component:
`parseFloat((99 / target).toFixed(4))`. -/
def calculateMultiplier (target : ℚ) : ℚ :=
  round4 (99 / target)

/-- Result of one dice roll: the rolled value, whether it won, the gross
winnings, the persisted ledger state after all writes, and the last
balance pushed to the UI through `onBalanceChange`. -/
structure DiceResult where
  finalResult : ℚ
  won : Bool
  winnings : ℚ
  db : LedgerState
  uiBalance : ℚ
deriving DecidableEq, Repr

/-- `rollDice` from the dice component, sequentially: guard on the bet,
spend the bet through `recordGameTransaction`, roll
`finalResult = draw·100`, and on a win compute
`winnings = round2 (betAmount·multiplier)`,
`newBalance = round2 (tokenBalance + winnings)` — from the `tokenBalance`
value the function was entered with — record the win credit of
`winnings − betAmount`, and finally persist `newBalance` through
`updateTokenBalance`.  On a loss only `tokenBalance − betAmount` is
persisted.  `none` models an early return or a thrown error. -/
def rollDice (db : LedgerState) (tokenBalance betAmount targetNumber multiplier draw : ℚ) :
    Option DiceResult :=
  if betAmount ≤ 0 ∨ tokenBalance < betAmount then none
  else
    match recordGameTransaction db GameType.dice betAmount false with
    | Except.error _ => none
    | Except.ok db1 =>
      let finalResult := draw * 100
      if finalResult ≤ targetNumber then
        let winnings := round2 (betAmount * multiplier)
        let newBalance := round2 (tokenBalance + winnings)
        match recordGameTransaction db1 GameType.dice (winnings - betAmount) true with
        | Except.error _ => none
        | Except.ok db2 =>
          some { finalResult := finalResult, won := true, winnings := winnings,
                 db := (updateTokenBalance db2 newBalance).1, uiBalance := newBalance }
      else
        some { finalResult := finalResult, won := false, winnings := 0,
               db := (updateTokenBalance db1 (tokenBalance - betAmount)).1,
               uiBalance := tokenBalance - betAmount }

end Dice

/-- C3: the end-to-end dice scenario of the specification — balance 100,
bet 20, target 50, uniform draw 0.30 (rolled value 30, a win).  Exactly two
transaction records are written (`game_spend` 20 then `game_win` 19.6),
but the final persisted balance is 139.6 = 698/5, not the specified
119.6 = 598/5: the win branch recomputes the balance from the stale
`tokenBalance` the component was rendered with (still 100), re-adding the
bet that the spend had already deducted, and overwrites the ledger with it. -/
theorem C3_dice_scenario_persists_139_60 :
    Dice.rollDice { token_balance := 100, transactions := [] }
        100 20 50 (Dice.calculateMultiplier 50) (3 / 10) =
      some { finalResult := 30, won := true, winnings := 198 / 5,
             db := { token_balance := 698 / 5,
                     transactions :=
                       [ { transaction_type := TxType.game_spend,
                           game_type := GameType.dice, token_amount := 20 },
                         { transaction_type := TxType.game_win,
                           game_type := GameType.dice, token_amount := 98 / 5 } ] },
             uiBalance := 698 / 5 } ∧
    (698 / 5 : ℚ) ≠ 100 - 20 + 20 * (99 / 50) := by
  constructor
  · norm_num [Dice.rollDice, Dice.calculateMultiplier, recordGameTransaction,
      updateTokenBalance, round2, round4, roundTo, round_eq]
  · norm_num

/-- C5: for every target in [1, 98] the dice payout multiplier is
`round4 (99 / target)` (so target 50 gives 1.98 = 99/50), and a roll wins
exactly when the uniform draw times 100 is at most the target. -/
theorem C5_dice_multiplier_and_win_condition (t d bet balance : ℚ)
    (db : LedgerState) (h1 : 1 ≤ t) (h2 : t ≤ 98) (hb : 0 < bet)
    (hbal : bet ≤ balance) (hdb : bet ≤ db.token_balance) :
    Dice.calculateMultiplier t = round4 (99 / t) ∧
    Dice.calculateMultiplier 50 = 99 / 50 ∧
    (Dice.rollDice db balance bet t (Dice.calculateMultiplier t) d).map
        Dice.DiceResult.won = some (decide (d * 100 ≤ t)) := by
  refine ⟨rfl, by norm_num [Dice.calculateMultiplier, round4, roundTo, round_eq], ?_⟩
  have hguard : ¬(bet ≤ 0 ∨ balance < bet) := by
    push_neg
    exact ⟨hb, hbal⟩
  unfold Dice.rollDice
  rw [if_neg hguard, recordGameTransaction_spend_ok db GameType.dice bet hdb]
  by_cases hwin : d * 100 ≤ t
  · simp only [if_pos hwin, recordGameTransaction_win_ok, Option.map_some]
    simp [hwin]
  · simp only [if_neg hwin, Option.map_some]
    simp [hwin]

/-- Witness for C5 at concrete inputs: target 50 gives multiplier
99/50 = 1.98, and with draw 0.30 (rolled value 30 ≤ 50) the roll wins. -/
theorem C5_dice_multiplier_and_win_condition_witness :
    Dice.calculateMultiplier 50 = 99 / 50 ∧
    (Dice.rollDice { token_balance := 100, transactions := [] }
        100 20 50 (Dice.calculateMultiplier 50) (3 / 10)).map
      Dice.DiceResult.won = some (decide ((3 / 10 : ℚ) * 100 ≤ 50)) := by
  have h := C5_dice_multiplier_and_win_condition 50 (3 / 10) 20 100
    { token_balance := 100, transactions := [] }
    (by norm_num) (by norm_num) (by norm_num) (by norm_num) (by norm_num)
  exact ⟨h.2.1, h.2.2⟩

/-- An exact cent amount passes through two-decimal rounding unchanged. -/
theorem round2_cents (k : ℤ) : round2 ((k : ℚ) / 100) = (k : ℚ) / 100 := by
  unfold round2
  have h := roundTo_int_units 2 k
  norm_num at h ⊢
  exact h

/-- The spend-then-credit pair every game performs for a won round: the
bet is spent through `recordGameTransaction` when the round starts, and on
the win the games call `recordGameTransaction` again with
`winnings − betAmount` (the net profit) as the credited amount. -/
def spendThenCredit (st : LedgerState) (g : GameType) (betAmount winnings : ℚ) :
    Except String LedgerState :=
  match recordGameTransaction st g betAmount false with
  | Except.error e => Except.error e
  | Except.ok st1 => recordGameTransaction st1 g (winnings - betAmount) true

/-- C4 counterexample: for the won round with balance 100, bet 20 and
winnings 39.6 = 198/5, the spend-then-credit pair leaves balance
99.6 = 498/5 — not balance − bet + winnings = 119.6 — and the second
appended record is a `game_win` whose amount is the profit 19.6 = 98/5,
not the winnings. -/
theorem C4_won_round_pair_counterexample :
    spendThenCredit { token_balance := 100, transactions := [] }
        GameType.dice 20 (198 / 5) =
      Except.ok { token_balance := 498 / 5,
                  transactions :=
                    [ { transaction_type := TxType.game_spend,
                        game_type := GameType.dice, token_amount := 20 },
                      { transaction_type := TxType.game_win,
                        game_type := GameType.dice, token_amount := 98 / 5 } ] } ∧
    (498 / 5 : ℚ) ≠ 100 - 20 + 198 / 5 ∧
    (98 / 5 : ℚ) ≠ 198 / 5 := by
  refine ⟨?_, by norm_num, by norm_num⟩
  norm_num [spendThenCredit, recordGameTransaction, updateTokenBalance,
    round2, roundTo, round_eq]

/-- C4 amended: for every won round (amounts in exact cents, bet positive
and covered by the balance, winnings at least the bet), the spend followed
by its corresponding credit yields
`balance_after = balance_before − bet + (winnings − bet)`, and exactly two
records are appended — first a `game_spend` of the bet, then a `game_win`
of the net profit `winnings − bet` (not of the winnings). -/
theorem C4_won_round_pair_amended (B T W : ℤ) (l : List TransactionRecord)
    (g : GameType) (h1 : 0 < T) (h2 : T ≤ B) (h3 : T ≤ W) :
    spendThenCredit { token_balance := (B : ℚ) / 100, transactions := l } g
        ((T : ℚ) / 100) ((W : ℚ) / 100) =
      Except.ok { token_balance := ((B : ℚ) - 2 * T + W) / 100,
                  transactions := l ++
                    [ { transaction_type := TxType.game_spend, game_type := g,
                        token_amount := (T : ℚ) / 100 },
                      { transaction_type := TxType.game_win, game_type := g,
                        token_amount := ((W : ℚ) - T) / 100 } ] } := by
  have hq : (T : ℚ) ≤ (B : ℚ) := by exact_mod_cast h2
  have hTB : (T : ℚ) / 100 ≤ (B : ℚ) / 100 := by linarith
  have e1 : (B : ℚ) / 100 - (T : ℚ) / 100 = ((B - T : ℤ) : ℚ) / 100 := by
    push_cast
    ring
  have hBT : (0 : ℚ) ≤ ((B - T : ℤ) : ℚ) / 100 := by
    apply div_nonneg _ (by norm_num)
    exact_mod_cast sub_nonneg.mpr h2
  have e2 : ((B - T : ℤ) : ℚ) / 100 + ((W : ℚ) / 100 - (T : ℚ) / 100) =
      ((B - 2 * T + W : ℤ) : ℚ) / 100 := by
    push_cast
    ring
  have hBTW : (0 : ℚ) ≤ ((B - 2 * T + W : ℤ) : ℚ) / 100 := by
    apply div_nonneg _ (by norm_num)
    have : (0 : ℤ) ≤ B - 2 * T + W := by omega
    exact_mod_cast this
  have a2 : round2 ((W : ℚ) / 100 - (T : ℚ) / 100) = ((W : ℚ) - T) / 100 := by
    have e : (W : ℚ) / 100 - (T : ℚ) / 100 = ((W - T : ℤ) : ℚ) / 100 := by
      push_cast
      ring
    rw [e, round2_cents]
    push_cast
    ring
  simp only [spendThenCredit,
    recordGameTransaction_spend_ok { token_balance := (B : ℚ) / 100, transactions := l }
      g ((T : ℚ) / 100) (by simpa using hTB),
    recordGameTransaction_win_ok, e1, max_eq_right hBT, round2_cents T,
    round2_cents (B - T), e2, max_eq_right hBTW, round2_cents (B - 2 * T + W),
    a2, Except.ok.injEq, LedgerState.mk.injEq]
  constructor
  · push_cast
    ring
  · simp

/-- Witness for C4 amended at the spec's example in cents: balance 100.00,
bet 20.00, winnings 39.60 give final balance 99.60 and the two records
(20.00 spend, 19.60 win). -/
theorem C4_won_round_pair_amended_witness :
    spendThenCredit { token_balance := ((10000 : ℤ) : ℚ) / 100, transactions := [] }
        GameType.dice (((2000 : ℤ) : ℚ) / 100) (((3960 : ℤ) : ℚ) / 100) =
      Except.ok { token_balance := (((10000 : ℤ) : ℚ) - 2 * 2000 + 3960) / 100,
                  transactions := [] ++
                    [ { transaction_type := TxType.game_spend,
                        game_type := GameType.dice,
                        token_amount := ((2000 : ℤ) : ℚ) / 100 },
                      { transaction_type := TxType.game_win,
                        game_type := GameType.dice,
                        token_amount := (((3960 : ℤ) : ℚ) - 2000) / 100 } ] } := by
  exact C4_won_round_pair_amended 10000 2000 3960 [] GameType.dice
    (by norm_num) (by norm_num) (by norm_num)

namespace Crash

/-- The crash game's house edge constant. -/
def HOUSE_EDGE : ℚ := 99 / 100

/-- The crash game's per-tick multiplier growth base. -/
def BASE_MULTIPLIER : ℚ := 10024 / 10000

/-- `calculateCrashPoint` from the crash component:
`e = 2^32`, `h = Math.floor(random · e)`; `1.00` when `h = 0`, otherwise
`Math.max(1.00, (100·e − h) / (e − h)) · HOUSE_EDGE`. -/
def calculateCrashPoint (draw : ℚ) : ℚ :=
  let e : ℚ := 2 ^ 32
  let h : ℤ := ⌊draw * e⌋
  if h = 0 then 1
  else max 1 ((100 * e - (h : ℚ)) / (e - (h : ℚ))) * HOUSE_EDGE

/-- The per-session state of the crash component that the `cashout`
handler touches (canvas/particle fields are pure rendering and omitted).
`ledger` is the persisted store, `tokenBalance` the balance prop the
component was rendered with. -/
structure GameState where
  ledger : LedgerState
  tokenBalance : ℚ
  betAmount : ℚ
  multiplier : ℚ
  hasBet : Bool
  crashed : Bool
  cashedOut : Bool
  lastWin : Option ℚ
  winsInSession : ℕ
deriving DecidableEq, Repr

/-- `cashout` from the crash component: returns immediately unless a live
bet exists and the round is neither crashed nor already cashed out;
otherwise computes `winnings = round2 (betAmount·multiplier)`,
`profit = round2 (winnings − betAmount)`, pushes
`newBalance = round2 (tokenBalance + winnings)` to the UI, records the win
credit, persists `newBalance`, and marks the round cashed out.  A thrown
ledger error (unreachable for win credits) leaves everything but the
already-pushed UI balance unchanged. -/
def cashout (st : GameState) : GameState :=
  if st.hasBet = false ∨ st.crashed = true ∨ st.cashedOut = true then st
  else
    let winnings := round2 (st.betAmount * st.multiplier)
    let profit := round2 (winnings - st.betAmount)
    let newBalance := round2 (st.tokenBalance + winnings)
    match recordGameTransaction st.ledger GameType.crash profit true with
    | Except.error _ => { st with tokenBalance := newBalance }
    | Except.ok db1 =>
      { st with ledger := (updateTokenBalance db1 newBalance).1,
                tokenBalance := newBalance,
                hasBet := false, lastWin := some profit, cashedOut := true,
                winsInSession := st.winsInSession + 1 }

/-- A settled crash round (guard true) is returned unchanged by `cashout`:
no balance write, no transaction row. -/
theorem crashCashout_of_settled (st : GameState)
    (h : st.hasBet = false ∨ st.crashed = true ∨ st.cashedOut = true) :
    cashout st = st := by
  unfold cashout
  rw [if_pos h]

/-- Either `cashout` is a no-op, or it marks the round cashed out with the
bet consumed. -/
theorem crashCashout_cases (st : GameState) :
    cashout st = st ∨
    ((cashout st).cashedOut = true ∧ (cashout st).hasBet = false) := by
  by_cases h : st.hasBet = false ∨ st.crashed = true ∨ st.cashedOut = true
  · exact Or.inl (crashCashout_of_settled st h)
  · right
    unfold cashout
    rw [if_neg h]
    simp [recordGameTransaction_win_ok]

end Crash

namespace Mines

/-- The mines grid is 5×5. -/
def GRID_SIZE : ℕ := 5

/-- `calculateMultiplier` from the mines component:
`probability = gems / (GRID_SIZE·GRID_SIZE − revealed)` and
`Number((0.99 / probability).toFixed(2))`.  The `mines` argument is unused
in the source as well. -/
def calculateMultiplier (revealed mines gems : ℕ) : ℚ :=
  let probability : ℚ := (gems : ℚ) / ((GRID_SIZE : ℚ) * GRID_SIZE - revealed)
  round2 ((99 / 100) / probability)

/-- In `revealTile`, after revealing a gem the new multiplier is
`calculateMultiplier (revealedCount + 1) mineCount gemCount`. -/
def revealGemMultiplier (revealedCount mineCount gemCount : ℕ) : ℚ :=
  calculateMultiplier (revealedCount + 1) mineCount gemCount

/-- The per-session state of the mines component that the `cashout`
handler touches (the grid reveal of the remaining cells is pure display
and omitted; it does not feed back into balances or the log). -/
structure GameState where
  ledger : LedgerState
  tokenBalance : ℚ
  betAmount : ℚ
  mineCount : ℕ
  gemCount : ℕ
  isPlaying : Bool
  revealedCount : ℕ
  currentMultiplier : ℚ
  lastWin : Option ℚ
deriving DecidableEq, Repr

/-- `cashout` from the mines component: returns immediately unless a round
is playing with at least one revealed gem; otherwise computes winnings and
profit, and — only when an actual bet was placed — pushes the final
balance, records the win credit and persists the balance; in every
non-guarded case the round stops playing and `lastWin` is set. -/
def cashout (st : GameState) : GameState :=
  if st.isPlaying = false ∨ st.revealedCount = 0 then st
  else
    let winnings := round2 (st.betAmount * st.currentMultiplier)
    let profit := round2 (winnings - st.betAmount)
    if 0 < st.betAmount then
      let finalBalance := round2 (st.tokenBalance + winnings)
      match recordGameTransaction st.ledger GameType.mines profit true with
      | Except.error _ => { st with tokenBalance := finalBalance }
      | Except.ok db1 =>
        { st with ledger := (updateTokenBalance db1 finalBalance).1,
                  tokenBalance := finalBalance,
                  isPlaying := false, lastWin := some profit }
    else
      { st with isPlaying := false, lastWin := some profit }

/-- A settled mines round (no longer playing) is returned unchanged by
`cashout`: no balance write, no transaction row. -/
theorem minesCashout_of_settled (st : GameState)
    (h : st.isPlaying = false ∨ st.revealedCount = 0) :
    cashout st = st := by
  unfold cashout
  rw [if_pos h]

/-- Either `cashout` is a no-op, or it stops the round playing. -/
theorem minesCashout_cases (st : GameState) :
    cashout st = st ∨ (cashout st).isPlaying = false := by
  by_cases h : st.isPlaying = false ∨ st.revealedCount = 0
  · exact Or.inl (minesCashout_of_settled st h)
  · right
    unfold cashout
    rw [if_neg h]
    by_cases hb : 0 < st.betAmount
    · rw [if_pos hb, recordGameTransaction_win_ok]
    · rw [if_neg hb]

end Mines

/-- C2: settlement is idempotent per round instance.  A crash round that is
already settled (no live bet, crashed, or already cashed out) and a mines
round that is no longer playing are returned unchanged by `cashout` — no
balance change, no appended transaction record; a round reaches the
settled flags at most once, so a second `cashout` is always a no-op. -/
theorem C2_settlement_idempotent (c : Crash.GameState) (m : Mines.GameState) :
    ((c.hasBet = false ∨ c.crashed = true ∨ c.cashedOut = true) →
      Crash.cashout c = c) ∧
    Crash.cashout (Crash.cashout c) = Crash.cashout c ∧
    ((m.isPlaying = false ∨ m.revealedCount = 0) → Mines.cashout m = m) ∧
    Mines.cashout (Mines.cashout m) = Mines.cashout m := by
  refine ⟨Crash.crashCashout_of_settled c, ?_, Mines.minesCashout_of_settled m, ?_⟩
  · rcases Crash.crashCashout_cases c with h | h
    · simp only [h]
    · exact Crash.crashCashout_of_settled _ (Or.inr (Or.inr h.1))
  · rcases Mines.minesCashout_cases m with h | h
    · simp only [h]
    · exact Mines.minesCashout_of_settled _ (Or.inl h)

/-- Witness for C2 at concrete settled states: a crashed crash round and a
finished mines round are returned unchanged, and double cashout of a live
crash round equals a single cashout. -/
theorem C2_settlement_idempotent_witness :
    Crash.cashout
      { ledger := { token_balance := 80, transactions := [] },
        tokenBalance := 80, betAmount := 20, multiplier := 3 / 2,
        hasBet := true, crashed := true, cashedOut := false,
        lastWin := none, winsInSession := 0 } =
      { ledger := { token_balance := 80, transactions := [] },
        tokenBalance := 80, betAmount := 20, multiplier := 3 / 2,
        hasBet := true, crashed := true, cashedOut := false,
        lastWin := none, winsInSession := 0 } ∧
    Mines.cashout
      { ledger := { token_balance := 80, transactions := [] },
        tokenBalance := 80, betAmount := 20, mineCount := 10, gemCount := 15,
        isPlaying := false, revealedCount := 1, currentMultiplier := 79 / 50,
        lastWin := none } =
      { ledger := { token_balance := 80, transactions := [] },
        tokenBalance := 80, betAmount := 20, mineCount := 10, gemCount := 15,
        isPlaying := false, revealedCount := 1, currentMultiplier := 79 / 50,
        lastWin := none } ∧
    Crash.cashout (Crash.cashout
      { ledger := { token_balance := 80, transactions := [] },
        tokenBalance := 80, betAmount := 20, multiplier := 3 / 2,
        hasBet := true, crashed := false, cashedOut := false,
        lastWin := none, winsInSession := 0 }) =
    Crash.cashout
      { ledger := { token_balance := 80, transactions := [] },
        tokenBalance := 80, betAmount := 20, multiplier := 3 / 2,
        hasBet := true, crashed := false, cashedOut := false,
        lastWin := none, winsInSession := 0 } := by
  have h1 := C2_settlement_idempotent
    { ledger := { token_balance := 80, transactions := [] },
      tokenBalance := 80, betAmount := 20, multiplier := 3 / 2,
      hasBet := true, crashed := true, cashedOut := false,
      lastWin := none, winsInSession := 0 }
    { ledger := { token_balance := 80, transactions := [] },
      tokenBalance := 80, betAmount := 20, mineCount := 10, gemCount := 15,
      isPlaying := false, revealedCount := 1, currentMultiplier := 79 / 50,
      lastWin := none }
  have h2 := C2_settlement_idempotent
    { ledger := { token_balance := 80, transactions := [] },
      tokenBalance := 80, betAmount := 20, multiplier := 3 / 2,
      hasBet := true, crashed := false, cashedOut := false,
      lastWin := none, winsInSession := 0 }
    { ledger := { token_balance := 80, transactions := [] },
      tokenBalance := 80, betAmount := 20, mineCount := 10, gemCount := 15,
      isPlaying := false, revealedCount := 1, currentMultiplier := 79 / 50,
      lastWin := none }
  exact ⟨h1.1 (Or.inr (Or.inl rfl)), h1.2.2.1 (Or.inl rfl), h2.2.1⟩

/-- C6: for every mines round, the multiplier after revealing `k` safe
cells is `0.99 / (gemCount / (25 − k))` rounded to 2 decimals (equivalently
`0.99·(25 − k)/gemCount` rounded); with 10 mines and 15 gems the
multiplier after the first revealed gem is 1.58 = 79/50. -/
theorem C6_mines_multiplier (k m g : ℕ) (hk : k < 25) (hg : 1 ≤ g) :
    Mines.calculateMultiplier k m g =
      round2 ((99 / 100) / ((g : ℚ) / (25 - (k : ℚ)))) ∧
    Mines.calculateMultiplier k m g =
      round2 ((99 / 100) * (25 - (k : ℚ)) / (g : ℚ)) ∧
    Mines.revealGemMultiplier 0 10 15 = 79 / 50 := by
  have h1 : Mines.calculateMultiplier k m g =
      round2 ((99 / 100) / ((g : ℚ) / (25 - (k : ℚ)))) := by
    unfold Mines.calculateMultiplier Mines.GRID_SIZE
    norm_num
  refine ⟨h1, ?_, ?_⟩
  · rw [h1, div_div_eq_mul_div]
  · unfold Mines.revealGemMultiplier Mines.calculateMultiplier Mines.GRID_SIZE
    norm_num [round2, roundTo, round_eq]

/-- Witness for C6 at the spec's concrete instance: one revealed gem, 10
mines, 15 gems gives 1.58 = 79/50. -/
theorem C6_mines_multiplier_witness :
    Mines.calculateMultiplier 1 10 15 =
      round2 ((99 / 100) / ((15 : ℚ) / (25 - (1 : ℚ)))) ∧
    Mines.revealGemMultiplier 0 10 15 = 79 / 50 := by
  have h := C6_mines_multiplier 1 10 15 (by norm_num) (by norm_num)
  exact ⟨h.1, h.2.2⟩

/-- C7: the crash point is `max 1 ((100·E − H)/(E − H)) · 0.99` with
`E = 2^32` and `H = ⌊draw · E⌋` whenever `H ≠ 0`, and it is exactly 1.00
whenever `H = 0`, for every draw in [0, 1). -/
theorem C7_crash_point_formula (draw : ℚ) (h0 : 0 ≤ draw) (h1 : draw < 1) :
    (⌊draw * 2 ^ 32⌋ = 0 → Crash.calculateCrashPoint draw = 1) ∧
    (⌊draw * 2 ^ 32⌋ ≠ 0 → Crash.calculateCrashPoint draw =
      max 1 ((100 * 2 ^ 32 - (⌊draw * 2 ^ 32⌋ : ℚ)) /
        (2 ^ 32 - (⌊draw * 2 ^ 32⌋ : ℚ))) * (99 / 100)) := by
  constructor
  · intro hz
    unfold Crash.calculateCrashPoint
    simp only [hz]
    norm_num
  · intro hnz
    unfold Crash.calculateCrashPoint Crash.HOUSE_EDGE
    simp only [if_neg hnz]

/-- Witness for C7 at concrete draws: draw 0 gives `H = 0` and crash point
exactly 1, and draw 1/2 gives `H = 2^31 ≠ 0` and the formula value. -/
theorem C7_crash_point_formula_witness :
    Crash.calculateCrashPoint 0 = 1 ∧
    Crash.calculateCrashPoint (1 / 2) =
      max 1 ((100 * 2 ^ 32 - (⌊(1 / 2 : ℚ) * 2 ^ 32⌋ : ℚ)) /
        (2 ^ 32 - (⌊(1 / 2 : ℚ) * 2 ^ 32⌋ : ℚ))) * (99 / 100) :=
  ⟨(C7_crash_point_formula 0 le_rfl (by norm_num)).1 (by norm_num),
   (C7_crash_point_formula (1 / 2) (by norm_num) (by norm_num)).2 (by norm_num)⟩

namespace Blackjack

/-- Card ranks of the standard 52-card deck built by `createDeck`. -/
inductive CardValue where
  | ace
  | two
  | three
  | four
  | five
  | six
  | seven
  | eight
  | nine
  | ten
  | jack
  | queen
  | king
deriving DecidableEq, Repr

/-- Card suits. -/
inductive Suit where
  | spades
  | hearts
  | diamonds
  | clubs
deriving DecidableEq, Repr

/-- The numeric value assigned in `createDeck`: ace 11, face cards 10,
otherwise the printed number. -/
def cardNumericValue : CardValue → ℕ
  | CardValue.ace => 11
  | CardValue.two => 2
  | CardValue.three => 3
  | CardValue.four => 4
  | CardValue.five => 5
  | CardValue.six => 6
  | CardValue.seven => 7
  | CardValue.eight => 8
  | CardValue.nine => 9
  | CardValue.ten => 10
  | CardValue.jack => 10
  | CardValue.queen => 10
  | CardValue.king => 10

/-- A card as in the blackjack component. -/
structure Card where
  suit : Suit
  value : CardValue
deriving DecidableEq, Repr

/-- The `numericValue` field computed by `createDeck`. -/
def Card.numericValue (c : Card) : ℕ :=
  cardNumericValue c.value

/-- The `while (score > 21 && aces > 0)` softening loop of
`calculateScore`: each iteration downgrades one ace from 11 to 1. -/
def softenAces : ℕ → ℕ → ℕ
  | score, 0 => score
  | score, aces + 1 => if 21 < score then softenAces (score - 10) aces else score

/-- `calculateScore` from the blackjack component: sum the numeric values,
count the aces, then soften aces while the score exceeds 21. -/
def calculateScore (hand : List Card) : ℕ :=
  softenAces ((hand.map Card.numericValue).sum)
    ((hand.filter (fun c => decide (c.value = CardValue.ace))).length)

/-- `dealCard`: pops the last card off the deck array; an empty deck
throws (`none`). -/
def dealCard (deck : List Card) : Option (Card × List Card) :=
  match deck.getLast? with
  | none => none
  | some card => some (card, deck.dropLast)

theorem dealCard_length_lt (deck : List Card) (c : Card) (d : List Card)
    (h : dealCard deck = some (c, d)) : d.length < deck.length := by
  unfold dealCard at h
  cases hl : deck.getLast? with
  | none =>
    rw [hl] at h
    simp at h
  | some card =>
    rw [hl] at h
    simp only [Option.some.injEq, Prod.mk.injEq] at h
    have hne : deck ≠ [] := by
      intro hnil
      subst hnil
      simp at hl
    have hpos : 0 < deck.length := List.length_pos.mpr hne
    rw [← h.2, List.length_dropLast]
    omega

/-- The dealer loop of `handleDealerTurn`: hit while the dealer score is
below 17; an empty deck throws (`none`). -/
def dealerPlay (dealerHand deck : List Card) : Option (List Card × List Card) :=
  if calculateScore dealerHand < 17 then
    match h : dealCard deck with
    | none => none
    | some (card, newDeck) => dealerPlay (dealerHand ++ [card]) newDeck
  else
    some (dealerHand, deck)
termination_by deck.length
decreasing_by
  exact dealCard_length_lt deck card newDeck h

/-- The resolution logic at the end of `handleDealerTurn` (lines 205-225):
bust checks player first, then dealer, then one-sided naturals, then plain
score comparison.  Returns `(playerWins, playerBlackjack)`, the two values
passed to `handleGameEnd`. -/
def resolve (playerHand dealerHand : List Card) : Bool × Bool :=
  let playerScore := calculateScore playerHand
  let dealerScore := calculateScore dealerHand
  let playerBusted : Bool := decide (21 < playerScore)
  let dealerBusted : Bool := decide (21 < dealerScore)
  let playerBlackjack : Bool :=
    decide (playerScore = 21) && decide (playerHand.length = 2)
  let dealerBlackjack : Bool :=
    decide (dealerScore = 21) && decide (dealerHand.length = 2)
  let playerWins : Bool :=
    if playerBusted then false
    else if dealerBusted then true
    else if playerBlackjack && !dealerBlackjack then true
    else if !playerBlackjack && dealerBlackjack then false
    else decide (dealerScore < playerScore)
  (playerWins, playerBlackjack)

/-- The payout computed in `handleGameEnd`: a winning natural blackjack
pays `round2 (bet·2.5)`, an ordinary win `round2 (bet·2)`, a loss pays
nothing. -/
def handleGameEndWinnings (betAmount : ℚ) (playerWins isBlackjack : Bool) : ℚ :=
  if playerWins then
    if isBlackjack then round2 (betAmount * 2.5) else round2 (betAmount * 2)
  else 0

/-- The signed amount `handleGameEnd` pushes into the recent-games list:
profit on a win, minus the bet on a loss. -/
def handleGameEndRecordAmount (betAmount winnings : ℚ) (playerWins : Bool) : ℚ :=
  if playerWins then winnings - betAmount else -betAmount

end Blackjack

/-- C8 counterexample: with player hand 10♠ 8♥ and dealer hand 10♣ 8♦ both
hands score 18 (non-busted, no naturals, the dealer stands on 18), yet the
resolution sets `playerWins = false`: the player receives nothing and the
recorded amount is −bet.  The claimed standard-rules push (bet not lost)
does not hold on this code. -/
theorem C8_push_resolved_as_loss_counterexample :
    Blackjack.calculateScore
      [ { suit := Blackjack.Suit.spades, value := Blackjack.CardValue.ten },
        { suit := Blackjack.Suit.hearts, value := Blackjack.CardValue.eight } ] = 18 ∧
    Blackjack.calculateScore
      [ { suit := Blackjack.Suit.clubs, value := Blackjack.CardValue.ten },
        { suit := Blackjack.Suit.diamonds, value := Blackjack.CardValue.eight } ] = 18 ∧
    Blackjack.dealerPlay
      [ { suit := Blackjack.Suit.clubs, value := Blackjack.CardValue.ten },
        { suit := Blackjack.Suit.diamonds, value := Blackjack.CardValue.eight } ] [] =
      some ([ { suit := Blackjack.Suit.clubs, value := Blackjack.CardValue.ten },
              { suit := Blackjack.Suit.diamonds, value := Blackjack.CardValue.eight } ], []) ∧
    (Blackjack.resolve
      [ { suit := Blackjack.Suit.spades, value := Blackjack.CardValue.ten },
        { suit := Blackjack.Suit.hearts, value := Blackjack.CardValue.eight } ]
      [ { suit := Blackjack.Suit.clubs, value := Blackjack.CardValue.ten },
        { suit := Blackjack.Suit.diamonds, value := Blackjack.CardValue.eight } ]).1 = false ∧
    Blackjack.handleGameEndWinnings 20 false false = 0 ∧
    Blackjack.handleGameEndRecordAmount 20 0 false = -20 := by
  refine ⟨by decide, by decide, ?_, by decide, rfl, by norm_num [Blackjack.handleGameEndRecordAmount]⟩
  rw [Blackjack.dealerPlay, if_neg (by decide)]

/-- C8 amended: blackjack resolution checks busts player-first then
dealer, flags a two-card 21 (such as A,K) as a natural blackjack, pays
2.5× the bet on a winning natural and 2× on an ordinary win — but equal
non-busted scores with no one-sided natural resolve as a loss of the bet
(the code has no push: the player's winnings are 0 and the recorded amount
is −bet). -/
theorem C8_blackjack_resolution_amended (ph dh : List Blackjack.Card) (bet : ℚ) :
    Blackjack.calculateScore
      [ { suit := Blackjack.Suit.spades, value := Blackjack.CardValue.ace },
        { suit := Blackjack.Suit.spades, value := Blackjack.CardValue.king } ] = 21 ∧
    (21 < Blackjack.calculateScore ph → (Blackjack.resolve ph dh).1 = false) ∧
    (Blackjack.calculateScore ph ≤ 21 → 21 < Blackjack.calculateScore dh →
      (Blackjack.resolve ph dh).1 = true) ∧
    (Blackjack.calculateScore ph = 21 → ph.length = 2 →
      (Blackjack.resolve ph dh).2 = true) ∧
    Blackjack.handleGameEndWinnings bet true true = round2 (bet * 2.5) ∧
    Blackjack.handleGameEndWinnings bet true false = round2 (bet * 2) ∧
    (Blackjack.calculateScore ph = Blackjack.calculateScore dh →
      Blackjack.calculateScore ph ≤ 21 →
      ((Blackjack.calculateScore ph = 21 ∧ ph.length = 2) ↔
        (Blackjack.calculateScore dh = 21 ∧ dh.length = 2)) →
      (Blackjack.resolve ph dh).1 = false ∧
      Blackjack.handleGameEndWinnings bet ((Blackjack.resolve ph dh).1)
        ((Blackjack.resolve ph dh).2) = 0 ∧
      Blackjack.handleGameEndRecordAmount bet 0 ((Blackjack.resolve ph dh).1) = -bet) := by
  refine ⟨by decide, ?_, ?_, ?_, rfl, rfl, ?_⟩
  · intro h
    simp [Blackjack.resolve, h]
  · intro h1 h2
    simp [Blackjack.resolve, Nat.not_lt.mpr h1, h2]
  · intro h1 h2
    simp [Blackjack.resolve, h1, h2]
  · intro heq hle hbj
    have hwins : (Blackjack.resolve ph dh).1 = false := by
      have hple : ¬(21 < Blackjack.calculateScore ph) := Nat.not_lt.mpr hle
      have hdle : ¬(21 < Blackjack.calculateScore dh) := by
        rw [← heq]
        exact hple
      have hlt : ¬(Blackjack.calculateScore dh < Blackjack.calculateScore ph) := by
        rw [heq]
        exact lt_irrefl _
      by_cases hp : Blackjack.calculateScore ph = 21 ∧ ph.length = 2
      · have hd : Blackjack.calculateScore dh = 21 ∧ dh.length = 2 := hbj.mp hp
        simp [Blackjack.resolve, hple, hdle, hp.1, hp.2, hd.1, hd.2, hlt]
      · have hd : ¬(Blackjack.calculateScore dh = 21 ∧ dh.length = 2) := fun hd => hp (hbj.mpr hd)
        rw [not_and_or] at hp hd
        rcases hp with hp | hp <;> rcases hd with hd | hd <;>
          simp [Blackjack.resolve, hple, hdle, hp, hd, hlt]
    refine ⟨hwins, ?_, ?_⟩
    · rw [hwins]
      rfl
    · rw [hwins]
      simp [Blackjack.handleGameEndRecordAmount]

/-- Witness for C8 amended at concrete inputs: A♠ K♠ scores 21 and is
flagged a natural against a dealer 19; a winning natural at bet 20 pays
round2 (20·2.5) = 50; and the 18-versus-18 tie resolves as a loss with
winnings 0 and recorded amount −20. -/
theorem C8_blackjack_resolution_amended_witness :
    Blackjack.calculateScore
      [ { suit := Blackjack.Suit.spades, value := Blackjack.CardValue.ace },
        { suit := Blackjack.Suit.spades, value := Blackjack.CardValue.king } ] = 21 ∧
    (Blackjack.resolve
      [ { suit := Blackjack.Suit.spades, value := Blackjack.CardValue.ace },
        { suit := Blackjack.Suit.spades, value := Blackjack.CardValue.king } ]
      [ { suit := Blackjack.Suit.hearts, value := Blackjack.CardValue.ten },
        { suit := Blackjack.Suit.clubs, value := Blackjack.CardValue.nine } ]).2 = true ∧
    Blackjack.handleGameEndWinnings 20 true true = round2 (20 * 2.5) ∧
    (Blackjack.resolve
      [ { suit := Blackjack.Suit.spades, value := Blackjack.CardValue.ten },
        { suit := Blackjack.Suit.hearts, value := Blackjack.CardValue.eight } ]
      [ { suit := Blackjack.Suit.clubs, value := Blackjack.CardValue.ten },
        { suit := Blackjack.Suit.diamonds, value := Blackjack.CardValue.eight } ]).1 = false := by
  have h1 := C8_blackjack_resolution_amended
    [ { suit := Blackjack.Suit.spades, value := Blackjack.CardValue.ace },
      { suit := Blackjack.Suit.spades, value := Blackjack.CardValue.king } ]
    [ { suit := Blackjack.Suit.hearts, value := Blackjack.CardValue.ten },
      { suit := Blackjack.Suit.clubs, value := Blackjack.CardValue.nine } ] 20
  have h2 := C8_blackjack_resolution_amended
    [ { suit := Blackjack.Suit.spades, value := Blackjack.CardValue.ten },
      { suit := Blackjack.Suit.hearts, value := Blackjack.CardValue.eight } ]
    [ { suit := Blackjack.Suit.clubs, value := Blackjack.CardValue.ten },
      { suit := Blackjack.Suit.diamonds, value := Blackjack.CardValue.eight } ] 20
  exact ⟨h1.1, h1.2.2.2.1 (by decide) (by decide), h1.2.2.2.2.1,
    (h2.2.2.2.2.2.2 (by decide) (by decide) (by decide)).1⟩

end Casino
